import Mathlib

/-!
Shallow embedding of the SupermarketAppMVC cart-to-order checkout pipeline.

Sources embedded here:
  - models/productModel.js   (getById, decreaseQuantities)
  - models/cartModel.js      (getCartItems, getItemQuantity, setQuantity,
                              removeItem, clearCart)
  - models/orderModel.js     (ORDER_STATUSES, normalizeStatus, formatMoney,
                              create, update)
  - models/orderItemModel.js (createMany, getByOrder)
  - controllers/cartController.js  (mapCartRows, insufficientStockMessage,
                              add, updateQuantity, checkout, TAX_RATE)
  - controllers/adminOrdersController.js (update: inverse tax recompute)

Monetary values and quantities are modelled as rationals; the JavaScript
`Number(x).toFixed(2)` rounding step is `round2 x = round (x * 100) / 100`
(ECMAScript toFixed picks the closest scaled integer, ties towards the
larger one, which is `round` on rationals).  A JavaScript number that may
be NaN is modelled as `Option Rat` with `none` standing for NaN; the NaN
propagation and comparison rules of the relevant expressions are modelled
point by point where the code can actually meet a NaN.  The MySQL tables
are modelled as lists of rows inside a `DB` state record, and each model
function is the state transformer of the corresponding query sequence.
-/

namespace Supermarket

/-- TAX_RATE = 0.09, fixed in controllers/cartController.js and
controllers/adminOrdersController.js. -/
def TAX_RATE : ℚ := 9 / 100

/-- `Number(x.toFixed(2))`: round to exactly 2 decimal places,
ties towards the larger value. -/
def round2 (x : ℚ) : ℚ := (round (x * 100) : ℤ) / 100

/-- A rational that is a whole number of cents (the image of `round2`). -/
def IsCents (m : ℚ) : Prop := ∃ k : ℤ, m = (k : ℚ) / 100

/-- orderModel.formatMoney: `Number((Number(value) || 0).toFixed(2))`.
`none` models a non-numeric value, whose `Number(...)` is NaN and is
replaced by `0` by the `|| 0` fallback. -/
def formatMoney (value : Option ℚ) : ℚ := round2 (value.getD 0)

/-- ORDER_STATUSES of models/orderModel.js. -/
def ORDER_STATUSES : List String :=
  ["Pending for delivery", "Order delivered", "Order completed", "Order cancelled"]

/-- DEFAULT_ORDER_STATUS = ORDER_STATUSES[0]. -/
def DEFAULT_ORDER_STATUS : String := "Pending for delivery"

/-- JavaScript `String.prototype.toLowerCase`, restricted to the ASCII
range (all the strings the order-status logic compares are ASCII). -/
def asciiToLower (c : Char) : Char :=
  if 'A' ≤ c ∧ c ≤ 'Z' then Char.ofNat (c.toNat + 32) else c

/-- `s.toLowerCase()` character by character. -/
def jsToLower (s : String) : String := String.mk (s.data.map asciiToLower)

/-- The whitespace characters relevant to `String.prototype.trim` here. -/
def isSpaceChar (c : Char) : Bool := c == ' ' || c == '\t' || c == '\n' || c == '\r'

/-- JavaScript `String.prototype.trim`: strip leading and trailing
whitespace. -/
def jsTrim (s : String) : String :=
  String.mk (((s.data.dropWhile isSpaceChar).reverse.dropWhile isSpaceChar).reverse)

/-- orderModel.normalizeStatus: a non-string (`none`) or blank status falls
back to the default; otherwise a case-insensitive (trimmed) match against
ORDER_STATUSES, default when nothing matches. -/
def normalizeStatus (status : Option String) : String :=
  match status with
  | none => DEFAULT_ORDER_STATUS
  | some s =>
    if jsTrim s = "" then DEFAULT_ORDER_STATUS
    else
      match ORDER_STATUSES.find? (fun opt => jsToLower opt == jsToLower (jsTrim s)) with
      | some m => m
      | none => DEFAULT_ORDER_STATUS

/-- cartController.insufficientStockMessage. -/
def insufficientStockMessage (productName : String) : String :=
  "Don\x27t have sufficient stock for " ++ productName ++ "."

/-! ## Request-body quantity values

The cart controller reads `req.body.quantity`, which is `undefined` or a
string (or, defensively, a number).  The code only ever uses its falsiness
and its `Number(...)` image, so the value is abstracted by exactly those:
`nanStr` is any string `Number` rejects (for example "abc"), `numStr q` a
non-empty string with `Number(s) = q` (non-empty strings are truthy, so
`"0"` is `numStr 0`). -/

inductive BodyQty where
  | missing
  | emptyStr
  | nanStr
  | numStr (q : ℚ)
  | num (q : ℚ)
deriving DecidableEq

/-- `Number(req.body.quantity || 1)`: the falsy values (`undefined`, `""`,
`0`) are replaced by `1` before conversion; `none` is NaN. -/
def parseQty : BodyQty → Option ℚ
  | .missing => some 1
  | .emptyStr => some 1
  | .nanStr => none
  | .numStr q => some q
  | .num q => if q = 0 then some 1 else some q

/-- `Math.max(1, x)` on a possibly-NaN number: NaN propagates. -/
def jsMax1 : Option ℚ → Option ℚ
  | some q => some (max 1 q)
  | none => none

/-- cartController.add line 116:
`Math.max(1, Number(req.body.quantity || 1))`. -/
def requestedQty (body : BodyQty) : Option ℚ := jsMax1 (parseQty body)

/-- `requestedQty > maxAddable` on a possibly-NaN left operand: any
comparison with NaN is false. -/
def jsGtOpt : Option ℚ → ℚ → Bool
  | some x, y => decide (y < x)
  | none, _ => false

/-- cartController.updateQuantity lines 239-248:
`let qty = Number(req.body.quantity || 1); if (!Number.isFinite(qty) ||
qty < 1) qty = 1; if (qty > 999) qty = 999;`. -/
def clampQty (body : BodyQty) : ℚ :=
  match parseQty body with
  | none => 1
  | some q => if q < 1 then 1 else if q > 999 then 999 else q

/-! ## Persisted state -/

/-- A row of the `products` table (models/productModel.js). `quantity` is
the stock on hand. -/
structure Product where
  id : Nat
  productName : String
  quantity : ℚ
  price : ℚ
  image : String
deriving DecidableEq

/-- A row of the `cart_items` table (models/cartModel.js), unique per
(userId, productId). -/
structure CartLineRow where
  userId : Nat
  productId : Nat
  quantity : ℚ
deriving DecidableEq

/-- A result row of cartModel.getCartItems: cart_items joined with
products, exposing the productId as `id`. -/
structure CartRow where
  id : Nat
  quantity : ℚ
  productName : String
  price : ℚ
  image : String
deriving DecidableEq

/-- A cleaned cart item as produced by cartController.mapCartRows. -/
structure CartItem where
  id : Nat
  productName : String
  price : ℚ
  image : String
  quantity : ℚ
deriving DecidableEq

/-- A row of the `orders` table (models/orderModel.js). -/
structure OrderRow where
  id : Nat
  invoiceNumber : String
  userId : Nat
  subtotal : ℚ
  taxAmount : ℚ
  total : ℚ
  status : String
deriving DecidableEq

/-- A row of the `order_items` table (models/orderItemModel.js). -/
structure OrderItemRow where
  orderId : Nat
  productId : Nat
  productName : String
  unitPrice : ℚ
  quantity : ℚ
  subtotal : ℚ
deriving DecidableEq

/-- The database state: the four tables of the pipeline plus the
auto-increment counter of `orders`. -/
structure DB where
  products : List Product
  cartItems : List CartLineRow
  orders : List OrderRow
  orderItems : List OrderItemRow
  nextOrderId : Nat
deriving DecidableEq

/-! ## Model operations (one per source function) -/

/-- productModel.getById: first products row with this id, or null. -/
def getById (db : DB) (id : Nat) : Option Product :=
  db.products.find? (fun p => p.id == id)

/-- The stock a catalog (products table) reports for a product id. -/
def stockOf (products : List Product) (pid : Nat) : Option ℚ :=
  (products.find? (fun p => p.id == pid)).map (fun p => p.quantity)

/-- cartModel.getCartItems: the user's cart rows inner-joined with
products (rows whose product is gone are dropped by the INNER JOIN). -/
def getCartItems (db : DB) (userId : Nat) : List CartRow :=
  db.cartItems.filterMap (fun ci =>
    if ci.userId == userId then
      (db.products.find? (fun p => p.id == ci.productId)).map (fun p =>
        { id := ci.productId, quantity := ci.quantity,
          productName := p.productName, price := p.price, image := p.image })
    else none)

/-- cartModel.getItemQuantity: quantity of this product in the user's
cart, 0 when no row exists. -/
def getItemQuantity (db : DB) (userId productId : Nat) : ℚ :=
  match db.cartItems.find? (fun ci => ci.userId == userId && ci.productId == productId) with
  | some ci => ci.quantity
  | none => 0

/-- cartModel.removeItem: DELETE the (userId, productId) cart row. -/
def removeItem (db : DB) (userId productId : Nat) : DB :=
  { db with cartItems :=
      db.cartItems.filter (fun ci => !(ci.userId == userId && ci.productId == productId)) }

/-- cartModel.setQuantity: quantity ≤ 0 removes the row, otherwise
INSERT ... ON DUPLICATE KEY UPDATE upserts it (the UNIQUE key is
(userId, productId)). -/
def setQuantity (db : DB) (userId productId : Nat) (quantity : ℚ) : DB :=
  if quantity ≤ 0 then removeItem db userId productId
  else if db.cartItems.any (fun ci => ci.userId == userId && ci.productId == productId) then
    { db with cartItems := db.cartItems.map (fun ci =>
        if ci.userId == userId && ci.productId == productId then
          { ci with quantity := quantity } else ci) }
  else { db with cartItems := db.cartItems ++ [⟨userId, productId, quantity⟩] }

/-- cartModel.clearCart: DELETE all cart rows of the user. -/
def clearCart (db : DB) (userId : Nat) : DB :=
  { db with cartItems := db.cartItems.filter (fun ci => ci.userId != userId) }

/-- cartController.mapCartRows: `Number(row.quantity) || 1` — the stored
quantity is a number from an integer column, so the only falsy case is 0,
which falls back to 1. -/
def mapCartRows (rows : List CartRow) : List CartItem :=
  rows.map (fun row =>
    { id := row.id, productName := row.productName, price := row.price,
      image := row.image, quantity := if row.quantity = (0 : ℚ) then 1 else row.quantity })

/-- One UPDATE of productModel.decreaseQuantities:
`UPDATE products SET quantity = GREATEST(quantity - ?, 0) WHERE id = ?`,
skipped when the ordered quantity is ≤ 0. -/
def decreaseOne (products : List Product) (item : CartItem) : List Product :=
  if item.quantity ≤ 0 then products
  else products.map (fun p =>
    if p.id == item.id then { p with quantity := max (p.quantity - item.quantity) 0 } else p)

/-- productModel.decreaseQuantities: the UPDATE of `decreaseOne` issued
once per item. -/
def decreaseQuantities (items : List CartItem) (products : List Product) : List Product :=
  items.foldl decreaseOne products

/-- The totals object cartController.checkout (or an admin caller) hands
to orderModel.create. `total = none` models a missing or non-finite
total, `status = none` a missing status. -/
structure OrderTotals where
  subtotal : ℚ
  taxAmount : ℚ
  total : Option ℚ
  status : Option String
deriving DecidableEq

/-- orderModel.create: formats the totals with formatMoney, falls back to
subtotal + taxAmount when the given total is not finite, normalizes the
status (`payload.status || DEFAULT_ORDER_STATUS`), INSERTs the row and
returns the new auto-increment id. -/
def orderCreate (db : DB) (userId : Nat) (invoiceNumber : String) (t : OrderTotals) :
    Nat × DB :=
  let subtotal := formatMoney (some t.subtotal)
  let taxAmount := formatMoney (some t.taxAmount)
  let finalTotal := match t.total with
    | some v => v
    | none => subtotal + taxAmount
  let total := formatMoney (some finalTotal)
  let statusArg := match t.status with
    | some s => if s = "" then DEFAULT_ORDER_STATUS else s
    | none => DEFAULT_ORDER_STATUS
  let normalizedStatus := normalizeStatus (some statusArg)
  (db.nextOrderId,
   { db with
      orders := db.orders ++
        [⟨db.nextOrderId, invoiceNumber, userId, subtotal, taxAmount, total, normalizedStatus⟩],
      nextOrderId := db.nextOrderId + 1 })

/-- orderItemModel.createMany: bulk INSERT of one order_items row per cart
item, snapshotting name, unit price, quantity and subtotal = price ×
quantity (an empty list inserts nothing). -/
def createMany (db : DB) (orderId : Nat) (items : List CartItem) : DB :=
  { db with orderItems := db.orderItems ++ items.map (fun item =>
      ⟨orderId, item.id, item.productName, item.price, item.quantity,
        item.price * item.quantity⟩) }

/-- orderItemModel.getByOrder: all order_items rows of one order. -/
def getByOrder (db : DB) (orderId : Nat) : List OrderItemRow :=
  db.orderItems.filter (fun r => r.orderId == orderId)

/-- The fields adminOrdersController hands to orderModel.update; `none`
models a value that is not a number (or not a string, for status). -/
structure OrderUpdateFields where
  invoiceNumber : String
  subtotal : Option ℚ
  taxAmount : Option ℚ
  total : Option ℚ
  status : Option String
deriving DecidableEq

/-- orderModel.update: non-numeric subtotal falls back to the total,
non-numeric taxAmount to 0, non-numeric total to subtotal + taxAmount,
everything through formatMoney, status through normalizeStatus; then the
orders row is UPDATEd in place. -/
def orderUpdate (db : DB) (orderId : Nat) (f : OrderUpdateFields) : DB :=
  let normalizedStatus := normalizeStatus f.status
  let safeSubtotal := match f.subtotal with
    | some s => formatMoney (some s)
    | none => formatMoney f.total
  let safeTaxAmount := match f.taxAmount with
    | some t => formatMoney (some t)
    | none => formatMoney none
  let safeTotal := match f.total with
    | some t => formatMoney (some t)
    | none => formatMoney (some (safeSubtotal + safeTaxAmount))
  { db with orders := db.orders.map (fun o =>
      if o.id == orderId then
        { o with
            invoiceNumber := f.invoiceNumber, subtotal := safeSubtotal,
            taxAmount := safeTaxAmount, total := safeTotal, status := normalizedStatus }
      else o) }

/-! ## Controllers -/

/-- Outcome of cartController.add, as seen by the user: a 500 database
error, a 404, a redirect carrying an insufficient-stock flash message with
no cart mutation, or a redirect after a successful upsert. -/
inductive AddOutcome where
  | dbError
  | notFound
  | rejected (message : String)
  | added
deriving DecidableEq

/-- cartController.add.  The NaN path: when `requestedQty` is NaN the
stock comparison `requestedQty > maxAddable` is false, so the code reaches
`cartModel.setQuantity(userId, productId, currentQty + NaN)`; `NaN <= 0`
is also false, so the INSERT is attempted with a NaN parameter, which the
mysql driver serialises to an invalid SQL token and the query errors
(surfaced as the 500 `dbError`). -/
def addToCart (db : DB) (userId productId : Nat) (body : BodyQty) : AddOutcome × DB :=
  let reqQty := requestedQty body
  match getById db productId with
  | none => (.notFound, db)
  | some product =>
    let availableQty := product.quantity
    if availableQty ≤ 0 then (.rejected (insufficientStockMessage product.productName), db)
    else
      let currentQty := getItemQuantity db userId productId
      let maxAddable := availableQty - currentQty
      if maxAddable ≤ 0 ∨ jsGtOpt reqQty maxAddable then
        (.rejected (insufficientStockMessage product.productName), db)
      else
        match reqQty with
        | some q => (.added, setQuantity db userId productId (currentQty + q))
        | none => (.dbError, db)

/-- Outcome of cartController.updateQuantity: a 404, a removal of the cart
line with an insufficient-stock message, or an upsert to the final
quantity with the flash messages that were set. -/
inductive UpdateOutcome where
  | notFound
  | removed (message : String)
  | setTo (quantity : ℚ) (messages : List String)
deriving DecidableEq

/-- cartController.updateQuantity: clamp to [1, 999]; out-of-stock
products remove the line with a message; a request above stock is capped
to the available stock with a message; otherwise the clamped quantity is
stored. -/
def updateQuantity (db : DB) (userId productId : Nat) (body : BodyQty) :
    UpdateOutcome × DB :=
  let qty := clampQty body
  match getById db productId with
  | none => (.notFound, db)
  | some product =>
    let availableQty := product.quantity
    if availableQty ≤ 0 then
      (.removed (insufficientStockMessage product.productName),
       removeItem db userId productId)
    else if availableQty < qty then
      (.setTo availableQty [insufficientStockMessage product.productName],
       setQuantity db userId productId availableQty)
    else
      (.setTo qty [], setQuantity db userId productId qty)

/-- Which persistence queries of the checkout pipeline fail at the
database level.  Each of `getCart`, `createOrder`, `createItems` and
`clear` is a single SQL statement, so its failure leaves that one query
unapplied; step 6 (`decrease`) issues one UPDATE per cart item, so its
failure injection is per item position: `decrease i` says whether the
UPDATE for the item at position `i` fails, and the non-failing UPDATEs
are still applied. -/
structure CheckoutFails where
  getCart : Bool
  createOrder : Bool
  createItems : Bool
  decrease : Nat → Bool
  clear : Bool

/-- No injected failure: every query succeeds. -/
def noFails : CheckoutFails := ⟨false, false, false, fun _ => false, false⟩

/-- productModel.decreaseQuantities with database-failure injection:
`failsAt i` says whether the UPDATE issued for the item at position `i`
of the list fails.  One UPDATE is issued per item with positive quantity
(an item with quantity ≤ 0 issues no query and cannot fail); the source
fires all queries and only reports the first error once every callback
has returned, so every non-failing UPDATE is applied even when another
item's UPDATE fails.  Returns (some UPDATE failed, resulting products). -/
def decreaseQuantitiesFx (failsAt : Nat → Bool) :
    List CartItem → Nat → List Product → Bool × List Product
  | [], _, products => (false, products)
  | item :: rest, i, products =>
    if item.quantity ≤ 0 then decreaseQuantitiesFx failsAt rest (i + 1) products
    else
      let tail := decreaseQuantitiesFx failsAt rest (i + 1)
        (if failsAt i then products else decreaseOne products item)
      (failsAt i || tail.1, tail.2)

/-- Outcome of cartController.checkout: a 500 database error, a redirect
to /cart with the empty-cart flash message, or the rendered order summary. -/
inductive CheckoutOutcome where
  | dbError
  | emptyCart (message : String)
  | success (invoiceNumber : String) (subtotal taxAmount total : ℚ) (cart : List CartItem)
deriving DecidableEq

/-- cartController.checkout: load and map the cart, reject an empty cart,
compute invoice number (`INV-` + timestamp), subtotal (reduce of price ×
quantity), taxAmount = round2(subtotal × TAX_RATE), total =
round2(subtotal + taxAmount); then create the order header, bulk-create
the order items, decrement stock and clear the cart, each step only
after the previous one succeeded, with no rollback of committed steps. -/
def checkout (fails : CheckoutFails) (now : Nat) (db : DB) (userId : Nat) :
    CheckoutOutcome × DB :=
  if fails.getCart then (.dbError, db) else
  let cart := mapCartRows (getCartItems db userId)
  if cart.isEmpty then (.emptyCart "Your cart is empty.", db) else
  let invoiceNumber := "INV-" ++ toString now
  let subtotal := cart.foldl (fun sum item => sum + item.price * item.quantity) 0
  let taxAmount := round2 (subtotal * TAX_RATE)
  let total := round2 (subtotal + taxAmount)
  if fails.createOrder then (.dbError, db) else
  match orderCreate db userId invoiceNumber ⟨subtotal, taxAmount, some total, none⟩ with
  | (orderId, db1) =>
    if fails.createItems then (.dbError, db1) else
    let db2 := createMany db1 orderId cart
    let dres := decreaseQuantitiesFx fails.decrease cart 0 db2.products
    let db3 := { db2 with products := dres.2 }
    if dres.1 then (.dbError, db3) else
    if fails.clear then (.dbError, db3) else
    (.success invoiceNumber subtotal taxAmount total cart, clearCart db3 userId)

/-- adminOrdersController.update, recompute section (lines 324-328):
subtotal = round2(total / (1 + TAX_RATE)), then taxAmount =
round2(total − subtotal) clamped at 0. -/
def adminRecomputeTotals (parsedTotal : ℚ) : ℚ × ℚ :=
  let subtotal := round2 (parsedTotal / (1 + TAX_RATE))
  let taxAmount := round2 (parsedTotal - subtotal)
  (subtotal, if taxAmount < 0 then 0 else taxAmount)

/-- The inverse tax calculation exactly as the spec words it: subtotal =
round2(total / (1+TAX_RATE)), taxAmount = round2(total − subtotal)
clamped to ≥ 0, rounding after each derived step. -/
def specInverseTax (total : ℚ) : ℚ × ℚ :=
  let subtotal := round2 (total / (1 + TAX_RATE))
  (subtotal, max 0 (round2 (total - subtotal)))

/-! ## Concrete states for the scenario instances -/

/-- A one-product catalog: product 1, price 10.00, stock 5. -/
def demoProduct : Product := ⟨1, "Apple", 5, 10, "apple.png"⟩

/-- Scenario B state: user 1 holds 2 units of product 1 in the cart. -/
def scenarioBDb : DB :=
  ⟨[demoProduct], [⟨1, 1, 2⟩], [], [], 7⟩

/-- A state with an empty cart for user 1 (scenario D). -/
def emptyCartDb : DB :=
  ⟨[demoProduct], [], [], [], 7⟩

/-- A state where product 1 has gone fully out of stock while user 1
still holds 2 units of it in the cart. -/
def outOfStockDb : DB :=
  ⟨[⟨1, "Apple", 0, 10, "apple.png"⟩], [⟨1, 1, 2⟩], [], [], 7⟩

/-- A two-product catalog with user 1 holding both products in the cart:
2 Apples (stock 5) and 1 Bread (stock 4).  Used to exhibit a partial
stock decrement when the second per-item UPDATE of step 6 fails. -/
def twoItemDb : DB :=
  ⟨[⟨1, "Apple", 5, 10, "apple.png"⟩, ⟨2, "Bread", 4, 3, "bread.png"⟩],
   [⟨1, 1, 2⟩, ⟨1, 2, 1⟩], [], [], 7⟩

/-! ## Named projections of the checkout computation

These name the intermediate values the `checkout` orchestrator computes
(steps 1-3 of the pipeline), to state the pipeline lemmas readably; each
is definitionally the corresponding subterm of `checkout`. -/

/-- Step 1-2 of checkout: the user's joined and cleaned cart. -/
def checkoutCart (db : DB) (userId : Nat) : List CartItem :=
  mapCartRows (getCartItems db userId)

/-- Step 3: the reduce computing the subtotal. -/
def checkoutSubtotal (db : DB) (userId : Nat) : ℚ :=
  (checkoutCart db userId).foldl (fun sum item => sum + item.price * item.quantity) 0

/-- Step 3: taxAmount = round2(subtotal × TAX_RATE). -/
def checkoutTax (db : DB) (userId : Nat) : ℚ :=
  round2 (checkoutSubtotal db userId * TAX_RATE)

/-- Step 3: total = round2(subtotal + taxAmount). -/
def checkoutTotal (db : DB) (userId : Nat) : ℚ :=
  round2 (checkoutSubtotal db userId + checkoutTax db userId)

/-- The orders row step 4 inserts (orderModel.create applies formatMoney
to each monetary value and normalizes the absent status to the default). -/
def checkoutHeader (now : Nat) (db : DB) (userId : Nat) : OrderRow :=
  ⟨db.nextOrderId, "INV-" ++ toString now, userId,
    formatMoney (some (checkoutSubtotal db userId)),
    formatMoney (some (checkoutTax db userId)),
    formatMoney (some (checkoutTotal db userId)),
    normalizeStatus (some DEFAULT_ORDER_STATUS)⟩

/-- The order_items rows step 5 bulk-inserts. -/
def checkoutLines (db : DB) (userId : Nat) : List OrderItemRow :=
  (checkoutCart db userId).map (fun item =>
    ⟨db.nextOrderId, item.id, item.productName, item.price, item.quantity,
      item.price * item.quantity⟩)

/-! ## Arithmetic facts about round2 -/

theorem round2_cents (x : ℚ) : IsCents (round2 x) := ⟨round (x * 100), rfl⟩

theorem round2_of_cents {m : ℚ} (h : IsCents m) : round2 m = m := by
  obtain ⟨k, rfl⟩ := h
  rw [round2, div_mul_cancel₀ _ (by norm_num : (100 : ℚ) ≠ 0), round_intCast]

theorem round2_idem (x : ℚ) : round2 (round2 x) = round2 x :=
  round2_of_cents (round2_cents x)

theorem round2_add_cents (x : ℚ) {m : ℚ} (h : IsCents m) :
    round2 (x + m) = round2 x + m := by
  obtain ⟨k, rfl⟩ := h
  rw [round2, add_mul, div_mul_cancel₀ _ (by norm_num : (100 : ℚ) ≠ 0), round_add_int,
    round2]
  push_cast
  ring

theorem abs_sub_round2 (x : ℚ) : |x - round2 x| ≤ 1 / 200 := by
  have h := abs_sub_round (x * 100)
  rw [round2]
  have h2 : x - (round (x * 100) : ℚ) / 100 = (x * 100 - round (x * 100)) / 100 := by
    ring
  rw [h2, abs_div, abs_of_nonneg (by norm_num : (0 : ℚ) ≤ 100)]
  linarith

/-! ## List helper lemmas -/

theorem foldl_lineTotal (l : List CartItem) (a : ℚ) :
    l.foldl (fun sum item => sum + item.price * item.quantity) a
      = a + (l.map (fun i => i.price * i.quantity)).sum := by
  induction l generalizing a with
  | nil => simp
  | cons hd tl ih => simp [List.foldl_cons, ih, List.sum_cons]; ring

theorem find?_map_congr {α : Type} (l : List α) (g : α → α) (p : α → Bool)
    (hg : ∀ a, p (g a) = p a) :
    (l.map g).find? p = (l.find? p).map g := by
  rw [List.find?_map, show (p ∘ g) = p from funext hg]

/-! ## Stock decrement lemmas -/

theorem stockOf_decreaseOne_ne (products : List Product) (item : CartItem) {pid : Nat}
    (h : item.id ≠ pid) :
    stockOf (decreaseOne products item) pid = stockOf products pid := by
  unfold decreaseOne
  split
  · rfl
  · unfold stockOf
    rw [find?_map_congr _ _ _ (fun p => by
      by_cases hpi : (p.id == item.id) = true <;> simp [hpi])]
    cases hf : products.find? (fun p => p.id == pid) with
    | none => rfl
    | some p =>
      have hpid : p.id = pid := by simpa using List.find?_some hf
      have hne2 : p.id ≠ item.id := by
        intro e
        exact h (by rw [← e]; exact hpid)
      simp [hne2]

theorem stockOf_decreaseOne_self (products : List Product) (item : CartItem)
    (hq : ¬ item.quantity ≤ 0) :
    stockOf (decreaseOne products item) item.id
      = (stockOf products item.id).map (fun s => max (s - item.quantity) 0) := by
  unfold decreaseOne stockOf
  rw [if_neg hq, find?_map_congr _ _ _ (fun p => by
    by_cases hpi : (p.id == item.id) = true <;> simp [hpi])]
  cases hf : products.find? (fun p => p.id == item.id) with
  | none => rfl
  | some p =>
    have hpid : p.id = item.id := by simpa using List.find?_some hf
    simp [hpid]

theorem stockOf_decreaseQuantities_of_not_mem (items : List CartItem)
    (products : List Product) (pid : Nat) (h : ∀ item ∈ items, item.id ≠ pid) :
    stockOf (decreaseQuantities items products) pid = stockOf products pid := by
  induction items generalizing products with
  | nil => rfl
  | cons hd tl ih =>
    rw [decreaseQuantities, List.foldl_cons,
      show List.foldl decreaseOne (decreaseOne products hd) tl
        = decreaseQuantities tl (decreaseOne products hd) from rfl,
      ih _ (fun i hi => h i (List.mem_cons_of_mem _ hi)),
      stockOf_decreaseOne_ne _ _ (h hd (List.mem_cons_self _ _))]

theorem stockOf_decreaseQuantities_of_mem (items : List CartItem)
    (products : List Product) (item : CartItem) (s : ℚ)
    (hnd : (items.map CartItem.id).Nodup) (hmem : item ∈ items)
    (hq : ¬ item.quantity ≤ 0) (hs : stockOf products item.id = some s) :
    stockOf (decreaseQuantities items products) item.id
      = some (max (s - item.quantity) 0) := by
  induction items generalizing products s with
  | nil => cases hmem
  | cons hd tl ih =>
    rw [List.map_cons] at hnd
    have hnd1 := (List.nodup_cons.mp hnd).1
    have hnd2 := (List.nodup_cons.mp hnd).2
    rw [decreaseQuantities, List.foldl_cons,
      show List.foldl decreaseOne (decreaseOne products hd) tl
        = decreaseQuantities tl (decreaseOne products hd) from rfl]
    rcases List.mem_cons.mp hmem with heq | hmem2
    · subst heq
      have htl : ∀ j ∈ tl, j.id ≠ item.id := by
        intro j hj e
        exact hnd1 (e ▸ List.mem_map_of_mem CartItem.id hj)
      rw [stockOf_decreaseQuantities_of_not_mem _ _ _ htl,
        stockOf_decreaseOne_self _ _ hq, hs]
      rfl
    · have hne : hd.id ≠ item.id := by
        intro e
        exact hnd1 (e ▸ List.mem_map_of_mem CartItem.id hmem2)
      exact ih _ _ hnd2 hmem2 (by rw [stockOf_decreaseOne_ne _ _ hne]; exact hs)

theorem decreaseOne_nonneg (products : List Product) (item : CartItem)
    (h : ∀ p ∈ products, 0 ≤ p.quantity) :
    ∀ p ∈ decreaseOne products item, 0 ≤ p.quantity := by
  intro p hp
  unfold decreaseOne at hp
  split at hp
  · exact h p hp
  · obtain ⟨q, hq, rfl⟩ := List.mem_map.mp hp
    by_cases hid : (q.id == item.id) = true
    · simp only [hid, if_true]
      exact le_max_right _ _
    · simp only [hid, if_false, Bool.false_eq_true]
      exact h q hq

theorem decreaseQuantities_nonneg (items : List CartItem) (products : List Product)
    (h : ∀ p ∈ products, 0 ≤ p.quantity) :
    ∀ p ∈ decreaseQuantities items products, 0 ≤ p.quantity := by
  induction items generalizing products with
  | nil => exact h
  | cons hd tl ih =>
    rw [decreaseQuantities, List.foldl_cons,
      show List.foldl decreaseOne (decreaseOne products hd) tl
        = decreaseQuantities tl (decreaseOne products hd) from rfl]
    exact ih _ (decreaseOne_nonneg _ _ h)

/-! ## Cart storage lemmas -/

theorem getItemQuantity_setQuantity_self (db : DB) (u pid : Nat) (q : ℚ)
    (hq : ¬ q ≤ 0) :
    getItemQuantity (setQuantity db u pid q) u pid = q := by
  unfold setQuantity
  rw [if_neg hq]
  by_cases hany : db.cartItems.any (fun ci => ci.userId == u && ci.productId == pid) = true
  · rw [if_pos hany]
    unfold getItemQuantity
    simp only []
    rw [find?_map_congr _ _ _ (fun ci => by
      by_cases hci : (ci.userId == u && ci.productId == pid) = true <;> simp [hci])]
    obtain ⟨ci, hmem, hci⟩ := List.any_eq_true.mp hany
    have hsome : (db.cartItems.find?
        (fun ci => ci.userId == u && ci.productId == pid)).isSome := by
      rw [List.find?_isSome]
      exact ⟨ci, hmem, hci⟩
    cases hf : db.cartItems.find? (fun ci => ci.userId == u && ci.productId == pid) with
    | none => rw [hf] at hsome; cases hsome
    | some cj =>
      have hcj : cj.userId = u ∧ cj.productId = pid := by
        simpa using List.find?_some hf
      simp [hcj.1, hcj.2]
  · rw [if_neg hany]
    unfold getItemQuantity
    have hnone : db.cartItems.find? (fun ci => ci.userId == u && ci.productId == pid)
        = none := by
      rw [List.find?_eq_none]
      intro x hx hpx
      exact hany (List.any_eq_true.mpr ⟨x, hx, hpx⟩)
    simp [List.find?_append, hnone]

theorem find?_removeItem (db : DB) (u pid : Nat) :
    (removeItem db u pid).cartItems.find?
      (fun ci => ci.userId == u && ci.productId == pid) = none := by
  unfold removeItem
  rw [List.find?_eq_none]
  intro x hx hpx
  have h2 := (List.mem_filter.mp hx).2
  rw [hpx] at h2
  cases h2

theorem getItemQuantity_removeItem (db : DB) (u pid : Nat) :
    getItemQuantity (removeItem db u pid) u pid = 0 := by
  unfold getItemQuantity
  rw [find?_removeItem]

/-! ## Checkout pipeline unfoldings -/

theorem decreaseQuantitiesFx_false (items : List CartItem) (i : Nat)
    (products : List Product) :
    decreaseQuantitiesFx (fun _ => false) items i products
      = (false, decreaseQuantities items products) := by
  induction items generalizing i products with
  | nil => rfl
  | cons hd tl ih =>
    rw [decreaseQuantitiesFx]
    by_cases hq : hd.quantity ≤ 0
    · rw [if_pos hq, ih,
        show decreaseQuantities (hd :: tl) products = decreaseQuantities tl products from by
          rw [decreaseQuantities, List.foldl_cons,
            show decreaseOne products hd = products from by
              unfold decreaseOne; rw [if_pos hq]]
          rfl]
    · rw [if_neg hq]
      dsimp only
      rw [ih]
      rfl

theorem checkout_noFails_eq (now : Nat) (db : DB) (userId : Nat)
    (h : (mapCartRows (getCartItems db userId)).isEmpty = false) :
    checkout noFails now db userId =
      (let cart := mapCartRows (getCartItems db userId)
       let subtotal := cart.foldl (fun sum item => sum + item.price * item.quantity) 0
       let taxAmount := round2 (subtotal * TAX_RATE)
       let total := round2 (subtotal + taxAmount)
       let pr := orderCreate db userId ("INV-" ++ toString now)
         ⟨subtotal, taxAmount, some total, none⟩
       let db2 := createMany pr.2 pr.1 cart
       let db3 := { db2 with products := decreaseQuantities cart db2.products }
       (CheckoutOutcome.success ("INV-" ++ toString now) subtotal taxAmount total cart,
        clearCart db3 userId)) := by
  rw [checkout]
  simp only [noFails, h, Bool.false_eq_true, if_false, decreaseQuantitiesFx_false]

theorem checkout_failGetCart_eq (fails : CheckoutFails) (now : Nat) (db : DB)
    (userId : Nat) (h : fails.getCart = true) :
    checkout fails now db userId = (CheckoutOutcome.dbError, db) := by
  rw [checkout]
  rw [if_pos h]

theorem checkout_failCreateOrder_eq (c5 : Bool) (d : Nat → Bool) (c7 : Bool)
    (now : Nat) (db : DB) (userId : Nat)
    (h : (mapCartRows (getCartItems db userId)).isEmpty = false) :
    checkout ⟨false, true, c5, d, c7⟩ now db userId
      = (CheckoutOutcome.dbError, db) := by
  rw [checkout]
  simp only [h, Bool.false_eq_true, if_false, if_true]

theorem checkout_failCreateItems_eq (d : Nat → Bool) (c7 : Bool)
    (now : Nat) (db : DB) (userId : Nat)
    (h : (mapCartRows (getCartItems db userId)).isEmpty = false) :
    checkout ⟨false, false, true, d, c7⟩ now db userId =
      (let cart := mapCartRows (getCartItems db userId)
       let subtotal := cart.foldl (fun sum item => sum + item.price * item.quantity) 0
       let taxAmount := round2 (subtotal * TAX_RATE)
       let total := round2 (subtotal + taxAmount)
       (CheckoutOutcome.dbError,
        (orderCreate db userId ("INV-" ++ toString now)
          ⟨subtotal, taxAmount, some total, none⟩).2)) := by
  rw [checkout]
  simp only [h, Bool.false_eq_true, if_false, if_true]

theorem checkout_failDecrease_eq (d : Nat → Bool) (c7 : Bool) (now : Nat) (db : DB)
    (userId : Nat)
    (h : (mapCartRows (getCartItems db userId)).isEmpty = false)
    (hd : (decreaseQuantitiesFx d (mapCartRows (getCartItems db userId)) 0
        db.products).1 = true) :
    checkout ⟨false, false, false, d, c7⟩ now db userId
      = (CheckoutOutcome.dbError,
         { db with
            orders := db.orders ++ [checkoutHeader now db userId],
            orderItems := db.orderItems ++ checkoutLines db userId,
            products := (decreaseQuantitiesFx d
              (mapCartRows (getCartItems db userId)) 0 db.products).2,
            nextOrderId := db.nextOrderId + 1 }) := by
  rw [checkout]
  simp only [h, Bool.false_eq_true, if_false]
  split
  · rfl
  · next hcond => exact absurd hd hcond

theorem checkout_failClear_eq (now : Nat) (db : DB) (userId : Nat)
    (h : (mapCartRows (getCartItems db userId)).isEmpty = false) :
    checkout ⟨false, false, false, fun _ => false, true⟩ now db userId
      = (CheckoutOutcome.dbError,
         { db with
            orders := db.orders ++ [checkoutHeader now db userId],
            orderItems := db.orderItems ++ checkoutLines db userId,
            products := decreaseQuantities (mapCartRows (getCartItems db userId))
              db.products,
            nextOrderId := db.nextOrderId + 1 }) := by
  rw [checkout]
  simp only [h, Bool.false_eq_true, if_false, decreaseQuantitiesFx_false, if_true]
  rfl

theorem checkout_emptyCart_eq (fails : CheckoutFails) (now : Nat) (db : DB) (userId : Nat)
    (hf : fails.getCart = false) (h : getCartItems db userId = []) :
    checkout fails now db userId = (.emptyCart "Your cart is empty.", db) := by
  rw [checkout]
  simp [hf, h, mapCartRows]

/-! ## Status and add-to-cart helper lemmas -/

theorem normalizeStatus_mem (s : Option String) :
    normalizeStatus s ∈ ORDER_STATUSES := by
  unfold normalizeStatus
  have hdef : DEFAULT_ORDER_STATUS ∈ ORDER_STATUSES := by
    simp [ORDER_STATUSES, DEFAULT_ORDER_STATUS]
  cases s with
  | none => exact hdef
  | some s =>
    dsimp only
    by_cases htrim : jsTrim s = ""
    · simp only [htrim, if_true]
      exact hdef
    · rw [if_neg htrim]
      cases hf : ORDER_STATUSES.find? (fun opt => jsToLower opt == jsToLower (jsTrim s)) with
      | none => exact hdef
      | some m => exact List.mem_of_find?_eq_some hf

theorem requestedQty_num_of_one_le (q : ℚ) (hq : 1 ≤ q) :
    requestedQty (BodyQty.num q) = some q := by
  unfold requestedQty parseQty jsMax1
  dsimp only
  rw [if_neg (by intro e; rw [e] at hq; norm_num at hq : ¬ q = 0)]
  dsimp only
  rw [max_eq_right hq]

theorem addToCart_num_eq (db : DB) (u pid : Nat) (p : Product) (q : ℚ)
    (hp : getById db pid = some p) (hq : 1 ≤ q)
    (hcur : 0 ≤ getItemQuantity db u pid) :
    addToCart db u pid (BodyQty.num q) =
      if q ≤ p.quantity - getItemQuantity db u pid then
        (AddOutcome.added,
         setQuantity db u pid (getItemQuantity db u pid + q))
      else (AddOutcome.rejected (insufficientStockMessage p.productName), db) := by
  unfold addToCart
  rw [requestedQty_num_of_one_le q hq, hp]
  simp only [jsGtOpt]
  rcases le_or_lt q (p.quantity - getItemQuantity db u pid) with hle | hgt
  · rw [if_pos hle, if_neg (by linarith : ¬ p.quantity ≤ 0),
      if_neg (by
        rw [not_or]
        constructor
        · linarith
        · simp only [decide_eq_true_eq, not_lt]
          exact hle)]
  · rw [if_neg (not_le.mpr hgt)]
    by_cases hs0 : p.quantity ≤ 0
    · rw [if_pos hs0]
    · rw [if_neg hs0, if_pos (Or.inr (by simp only [decide_eq_true_eq]; exact hgt))]

/-! ## Claim theorems -/

/-- C5: the admin order edit recompute is the inverse tax calculation:
subtotal = round2(total / (1 + TAX_RATE)), taxAmount = round2(total −
subtotal) clamped to ≥ 0, rounding after each derived step; at total =
21.80 it reproduces the forward-direction values subtotal = 20.00 and
taxAmount = 1.80 exactly. -/
theorem C5_admin_inverse_tax :
    (∀ t : ℚ, adminRecomputeTotals t = specInverseTax t) ∧
    (∀ t : ℚ, 0 ≤ (adminRecomputeTotals t).2) ∧
    adminRecomputeTotals (109 / 5) = (20, 9 / 5) ∧
    round2 ((20 : ℚ) * TAX_RATE) = 9 / 5 ∧
    round2 ((20 : ℚ) + 9 / 5) = 109 / 5 := by
  refine ⟨?_, ?_, ?_, ?_, ?_⟩
  · intro t
    unfold adminRecomputeTotals specInverseTax
    by_cases h : round2 (t - round2 (t / (1 + TAX_RATE))) < 0
    · simp only [h, if_true]
      rw [max_eq_left (le_of_lt h)]
    · simp only [h, if_false]
      rw [max_eq_right (not_lt.mp h)]
  · intro t
    unfold adminRecomputeTotals
    dsimp only
    split
    · exact le_refl 0
    · exact not_lt.mp (by assumption)
  · norm_num [adminRecomputeTotals, round2, TAX_RATE, round_eq]
  · norm_num [round2, TAX_RATE, round_eq]
  · norm_num [round2, round_eq]

/-- C7: checkout on an empty cart creates nothing: for every user whose
cart has no lines, checkout creates no Order row and no OrderLine rows,
leaves the persisted state unchanged, and surfaces the user-visible
message "Your cart is empty."; concretely on `emptyCartDb`. -/
theorem C7_empty_cart_checkout :
    (∀ fails now db userId, fails.getCart = false →
      getCartItems db userId = [] →
      checkout fails now db userId
        = (CheckoutOutcome.emptyCart "Your cart is empty.", db)) ∧
    checkout noFails 1000 emptyCartDb 1
      = (CheckoutOutcome.emptyCart "Your cart is empty.", emptyCartDb) := by
  refine ⟨fun fails now db userId hf h => checkout_emptyCart_eq fails now db userId hf h, ?_⟩
  exact checkout_emptyCart_eq _ _ _ _ rfl rfl

/-- C10: every order written through orderModel.create or
orderModel.update has one of the four allowed statuses; an empty,
non-string, or unmatched status string is silently coerced to the
default "Pending for delivery". -/
theorem C10_status_whitelist :
    (∀ s : Option String, normalizeStatus s ∈ ORDER_STATUSES) ∧
    normalizeStatus none = DEFAULT_ORDER_STATUS ∧
    normalizeStatus (some "") = DEFAULT_ORDER_STATUS ∧
    (∀ s : String,
      ORDER_STATUSES.find? (fun opt => jsToLower opt == jsToLower (jsTrim s)) = none →
      normalizeStatus (some s) = DEFAULT_ORDER_STATUS) ∧
    (∀ (db : DB) (userId : Nat) (inv : String) (t : OrderTotals),
      ∃ o : OrderRow,
        (orderCreate db userId inv t).2.orders = db.orders ++ [o] ∧
        o.status ∈ ORDER_STATUSES) ∧
    (∀ (db : DB) (orderId : Nat) (f : OrderUpdateFields),
      ∀ o ∈ (orderUpdate db orderId f).orders,
        o ∈ db.orders ∨ o.status = normalizeStatus f.status) ∧
    normalizeStatus (some "  order CANCELLED ") = "Order cancelled" ∧
    normalizeStatus (some "bogus") = DEFAULT_ORDER_STATUS ∧
    DEFAULT_ORDER_STATUS = "Pending for delivery" := by
  refine ⟨normalizeStatus_mem, rfl, by decide, ?_, ?_, ?_, by decide, by decide, rfl⟩
  · intro s hf
    unfold normalizeStatus
    dsimp only
    by_cases htrim : jsTrim s = ""
    · simp [htrim]
    · rw [if_neg htrim, hf]
  · intro db userId inv t
    refine ⟨_, rfl, ?_⟩
    dsimp only
    exact normalizeStatus_mem _
  · intro db orderId f o ho
    unfold orderUpdate at ho
    dsimp only at ho
    obtain ⟨orig, hmem, heq⟩ := List.mem_map.mp ho
    by_cases hid : (orig.id == orderId) = true
    · right
      rw [if_pos hid] at heq
      rw [← heq]
    · left
      rw [if_neg hid] at heq
      rw [← heq]
      exact hmem

/-- C1: product stock is never negative: decreaseQuantities floors every
decrement at 0 (GREATEST(quantity − q, 0)), so after a successful checkout
of a cart line {productId, quantity = q} the catalog reports stockQuantity
= max(0, previousStock − q), and every decrement preserves stockQuantity
≥ 0; concretely, decrementing stock 5 by quantity 7 leaves stock 0. -/
theorem C1_stock_never_negative :
    (∀ (items : List CartItem) (products : List Product),
      (∀ p ∈ products, 0 ≤ p.quantity) →
      ∀ p ∈ decreaseQuantities items products, 0 ≤ p.quantity) ∧
    (∀ (items : List CartItem) (products : List Product) (item : CartItem) (s : ℚ),
      (items.map CartItem.id).Nodup → item ∈ items → 1 ≤ item.quantity →
      stockOf products item.id = some s →
      stockOf (decreaseQuantities items products) item.id
        = some (max 0 (s - item.quantity))) ∧
    (∀ (now : Nat) (db : DB) (userId : Nat) (item : CartItem) (s : ℚ),
      ((mapCartRows (getCartItems db userId)).map CartItem.id).Nodup →
      item ∈ mapCartRows (getCartItems db userId) → 1 ≤ item.quantity →
      stockOf db.products item.id = some s →
      stockOf (checkout noFails now db userId).2.products item.id
        = some (max 0 (s - item.quantity))) ∧
    stockOf (decreaseQuantities [⟨1, "Apple", 10, "apple.png", 7⟩] [demoProduct]) 1
      = some 0 := by
  have hmax : ∀ s q : ℚ, max (s - q) 0 = max 0 (s - q) := fun s q => max_comm _ _
  refine ⟨?_, ?_, ?_, ?_⟩
  · intro items products h
    exact decreaseQuantities_nonneg items products h
  · intro items products item s hnd hmem hq hs
    rw [← hmax]
    exact stockOf_decreaseQuantities_of_mem items products item s hnd hmem (by linarith) hs
  · intro now db userId item s hnd hmem hq hs
    have hne : (mapCartRows (getCartItems db userId)).isEmpty = false := by
      rw [List.isEmpty_eq_false]
      exact List.ne_nil_of_mem hmem
    rw [checkout_noFails_eq now db userId hne]
    show stockOf (decreaseQuantities (mapCartRows (getCartItems db userId)) db.products)
        item.id = _
    rw [← hmax]
    exact stockOf_decreaseQuantities_of_mem _ _ item s hnd hmem (by linarith) hs
  · norm_num [decreaseQuantities, decreaseOne, demoProduct, stockOf]

/-- C2: forward pricing at checkout: for every non-empty cart, the
successful checkout outcome carries subtotal = Σ price × quantity over the
cart lines, taxAmount = round2(subtotal × TAX_RATE) and total =
round2(subtotal + taxAmount); for the cart [{price 10.00, qty 2}] checkout
yields subtotal 20.00, taxAmount 1.80, total 21.80, persists exactly these
values in the order row, empties the cart, and decreases the stock of that
product by 2 (5 → 3). -/
theorem C2_forward_pricing :
    (∀ (now : Nat) (db : DB) (userId : Nat) (S : ℚ),
      (mapCartRows (getCartItems db userId)).isEmpty = false →
      S = ((mapCartRows (getCartItems db userId)).map
            (fun i => i.price * i.quantity)).sum →
      (checkout noFails now db userId).1
        = CheckoutOutcome.success ("INV-" ++ toString now) S
            (round2 (S * TAX_RATE)) (round2 (S + round2 (S * TAX_RATE)))
            (mapCartRows (getCartItems db userId))) ∧
    (checkout noFails 1000 scenarioBDb 1).1
      = CheckoutOutcome.success "INV-1000" 20 (9 / 5) (109 / 5)
          [⟨1, "Apple", 10, "apple.png", 2⟩] ∧
    (checkout noFails 1000 scenarioBDb 1).2.orders
      = [⟨7, "INV-1000", 1, 20, 9 / 5, 109 / 5, "Pending for delivery"⟩] ∧
    (checkout noFails 1000 scenarioBDb 1).2.cartItems = [] ∧
    stockOf (checkout noFails 1000 scenarioBDb 1).2.products 1 = some 3 := by
  refine ⟨?_, ?_, ?_, ?_, ?_⟩
  · intro now db userId S hne hS
    have hfold : (mapCartRows (getCartItems db userId)).foldl
        (fun sum item => sum + item.price * item.quantity) 0 = S := by
      rw [foldl_lineTotal, zero_add, hS]
    rw [checkout_noFails_eq now db userId hne]
    dsimp only
    rw [hfold]
  · norm_num [checkout, noFails, scenarioBDb, demoProduct, mapCartRows, getCartItems,
      orderCreate, createMany, clearCart, decreaseQuantitiesFx, decreaseQuantities,
      decreaseOne, formatMoney,
      round2, TAX_RATE, round_eq, List.filterMap, List.foldl]
    try decide
  · norm_num [checkout, noFails, scenarioBDb, demoProduct, mapCartRows, getCartItems,
      orderCreate, createMany, clearCart, decreaseQuantitiesFx, decreaseQuantities,
      decreaseOne, formatMoney,
      normalizeStatus, round2, TAX_RATE, round_eq, List.filterMap, List.foldl]
    try decide
  · norm_num [checkout, noFails, scenarioBDb, demoProduct, mapCartRows, getCartItems,
      orderCreate, createMany, clearCart, decreaseQuantitiesFx, decreaseQuantities,
      decreaseOne, formatMoney,
      round2, TAX_RATE, round_eq, List.filterMap, List.foldl, List.filter]
  · norm_num [checkout, noFails, scenarioBDb, demoProduct, mapCartRows, getCartItems,
      orderCreate, createMany, clearCart, decreaseQuantitiesFx, decreaseQuantities,
      decreaseOne, formatMoney,
      round2, TAX_RATE, round_eq, List.filterMap, List.foldl, stockOf, List.find?]

theorem formatMoney_some (x : ℚ) : formatMoney (some x) = round2 x := rfl

theorem checkout_noFails_snd_orders (now : Nat) (db : DB) (userId : Nat)
    (hne : (mapCartRows (getCartItems db userId)).isEmpty = false) :
    (checkout noFails now db userId).2.orders
      = db.orders ++ [checkoutHeader now db userId] := by
  rw [checkout_noFails_eq now db userId hne]
  rfl

theorem checkout_noFails_snd_orderItems (now : Nat) (db : DB) (userId : Nat)
    (hne : (mapCartRows (getCartItems db userId)).isEmpty = false) :
    (checkout noFails now db userId).2.orderItems
      = db.orderItems ++ checkoutLines db userId := by
  rw [checkout_noFails_eq now db userId hne]
  rfl

theorem C6_order_line_roundtrip :
    (∀ (now : Nat) (db : DB) (userId : Nat),
      (∀ r ∈ db.orderItems, r.orderId ≠ db.nextOrderId) →
      (mapCartRows (getCartItems db userId)).isEmpty = false →
      ∃ o : OrderRow,
        (checkout noFails now db userId).2.orders = db.orders ++ [o] ∧
        |(((getByOrder (checkout noFails now db userId).2 o.id).map
            OrderItemRow.subtotal).sum) - o.subtotal| ≤ 1 / 100 ∧
        o.subtotal + o.taxAmount = o.total ∧
        round2 (o.subtotal + o.taxAmount) = o.total) ∧
    getByOrder (checkout noFails 1000 scenarioBDb 1).2 7
      = [⟨7, 1, "Apple", 10, 2, 20⟩] ∧
    ((getByOrder (checkout noFails 1000 scenarioBDb 1).2 7).map
        OrderItemRow.subtotal).sum = 20 := by
  refine ⟨?_, ?_, ?_⟩
  · intro now db userId hfresh hne
    have htax : round2 (checkoutTax db userId) = checkoutTax db userId := by
      rw [checkoutTax]
      exact round2_idem _
    have htot : round2 (checkoutTotal db userId) = checkoutTotal db userId := by
      rw [checkoutTotal]
      exact round2_idem _
    have hkey : (checkoutHeader now db userId).subtotal
        + (checkoutHeader now db userId).taxAmount
        = (checkoutHeader now db userId).total := by
      show round2 (checkoutSubtotal db userId) + round2 (checkoutTax db userId)
        = round2 (checkoutTotal db userId)
      rw [htax, htot, checkoutTotal]
      exact (round2_add_cents _ (by rw [checkoutTax]; exact round2_cents _)).symm
    have hgbo : getByOrder (checkout noFails now db userId).2 db.nextOrderId
        = checkoutLines db userId := by
      unfold getByOrder
      rw [checkout_noFails_snd_orderItems now db userId hne, List.filter_append,
        List.filter_eq_nil_iff.mpr ?_, List.nil_append, List.filter_eq_self.mpr ?_]
      · intro r hr
        obtain ⟨item, _, rfl⟩ := List.mem_map.mp hr
        exact beq_self_eq_true _
      · intro r hr hbeq
        exact hfresh r hr (by simpa using hbeq)
    refine ⟨checkoutHeader now db userId,
      checkout_noFails_snd_orders now db userId hne, ?_, hkey, ?_⟩
    · show |(((getByOrder (checkout noFails now db userId).2 db.nextOrderId).map
          OrderItemRow.subtotal).sum) - _| ≤ 1 / 100
      rw [hgbo]
      have hmap : (checkoutLines db userId).map OrderItemRow.subtotal
          = (checkoutCart db userId).map (fun i => i.price * i.quantity) := by
        rw [checkoutLines, List.map_map]
        rfl
      rw [hmap]
      have hsum : ((checkoutCart db userId).map (fun i => i.price * i.quantity)).sum
          = checkoutSubtotal db userId := by
        rw [checkoutSubtotal, foldl_lineTotal, zero_add]
      rw [hsum]
      show |checkoutSubtotal db userId - round2 (checkoutSubtotal db userId)| ≤ 1 / 100
      exact le_trans (abs_sub_round2 _) (by norm_num)
    · rw [hkey]
      show round2 (formatMoney (some (checkoutTotal db userId)))
        = formatMoney (some (checkoutTotal db userId))
      rw [formatMoney_some, round2_idem, htot]
  · norm_num [checkout, noFails, scenarioBDb, demoProduct, mapCartRows, getCartItems,
      orderCreate, createMany, clearCart, decreaseQuantitiesFx, decreaseQuantities,
      decreaseOne, formatMoney,
      round2, TAX_RATE, round_eq, List.filterMap, List.foldl, getByOrder, List.filter]
  · norm_num [checkout, noFails, scenarioBDb, demoProduct, mapCartRows, getCartItems,
      orderCreate, createMany, clearCart, decreaseQuantitiesFx, decreaseQuantities,
      decreaseOne, formatMoney,
      round2, TAX_RATE, round_eq, List.filterMap, List.foldl, getByOrder, List.filter]

/-- C3: add-to-cart contract: for product stock s, current cart quantity
cur ≥ 0 and requested quantity q ≥ 1, add(q) succeeds iff q ≤ s − cur; on
success the stored cart quantity becomes cur + q (additive, not
overwrite); on failure the cart is left unchanged and the user-visible
insufficient-stock notice names the product.  Concretely (Scenario A):
stock 5, empty cart, add(3) stores 3; add(3) again fails and the cart
stays at 3. -/
theorem C3_add_to_cart_contract :
    (∀ (db : DB) (userId productId : Nat) (p : Product) (q : ℚ),
      getById db productId = some p → 1 ≤ q →
      0 ≤ getItemQuantity db userId productId →
      (((addToCart db userId productId (BodyQty.num q)).1 = AddOutcome.added ↔
          q ≤ p.quantity - getItemQuantity db userId productId) ∧
       (q ≤ p.quantity - getItemQuantity db userId productId →
          addToCart db userId productId (BodyQty.num q)
            = (AddOutcome.added,
               setQuantity db userId productId
                 (getItemQuantity db userId productId + q)) ∧
          getItemQuantity (addToCart db userId productId (BodyQty.num q)).2
              userId productId
            = getItemQuantity db userId productId + q) ∧
       (¬ q ≤ p.quantity - getItemQuantity db userId productId →
          addToCart db userId productId (BodyQty.num q)
            = (AddOutcome.rejected
                ("Don\x27t have sufficient stock for " ++ p.productName ++ "."), db)))) ∧
    addToCart emptyCartDb 1 1 (BodyQty.num 3)
      = (AddOutcome.added, { emptyCartDb with cartItems := [⟨1, 1, 3⟩] }) ∧
    addToCart { emptyCartDb with cartItems := [⟨1, 1, 3⟩] } 1 1 (BodyQty.num 3)
      = (AddOutcome.rejected (insufficientStockMessage "Apple"),
         { emptyCartDb with cartItems := [⟨1, 1, 3⟩] }) := by
  refine ⟨?_, ?_, ?_⟩
  · intro db userId productId p q hp hq hcur
    have heq := addToCart_num_eq db userId productId p q hp hq hcur
    by_cases hle : q ≤ p.quantity - getItemQuantity db userId productId
    · rw [if_pos hle] at heq
      refine ⟨?_, fun _ => ⟨heq, ?_⟩, fun hy => absurd hle hy⟩
      · rw [heq]
        simp [hle]
      · rw [heq]
        exact getItemQuantity_setQuantity_self db userId productId _ (by linarith)
    · rw [if_neg hle] at heq
      refine ⟨?_, fun hy => absurd hy hle, fun _ => ?_⟩
      · rw [heq]
        simp [hle]
      · rw [heq]
        rfl
  · norm_num [addToCart, requestedQty, parseQty, jsMax1, jsGtOpt, getById, emptyCartDb,
      demoProduct, getItemQuantity, setQuantity, removeItem, List.find?, List.any]
    try decide
  · norm_num [addToCart, requestedQty, parseQty, jsMax1, jsGtOpt, getById, emptyCartDb,
      demoProduct, getItemQuantity, setQuantity, removeItem, insufficientStockMessage,
      List.find?, List.any]
    try decide

/-- C8: update-quantity clamps the requested quantity to [1, 999]; when
the product's available stock has dropped to 0 or below it removes the
cart line entirely (not merely caps it) and notifies the user with an
insufficient-stock message; when 0 < availableStock < requestedQuantity
the stored quantity is capped at the available stock and the cart line is
mutated.  Concretely: clamp(1000) = 999; an out-of-stock product removes
the line; a request of 1000 against stock 5 stores 5. -/
theorem C8_update_quantity :
    (∀ body : BodyQty, 1 ≤ clampQty body ∧ clampQty body ≤ 999) ∧
    (∀ (db : DB) (userId productId : Nat) (body : BodyQty) (p : Product),
      getById db productId = some p → p.quantity ≤ 0 →
      updateQuantity db userId productId body
        = (UpdateOutcome.removed (insufficientStockMessage p.productName),
           removeItem db userId productId) ∧
      (removeItem db userId productId).cartItems.find?
          (fun ci => ci.userId == userId && ci.productId == productId) = none) ∧
    (∀ (db : DB) (userId productId : Nat) (body : BodyQty) (p : Product),
      getById db productId = some p → 0 < p.quantity →
      p.quantity < clampQty body →
      updateQuantity db userId productId body
        = (UpdateOutcome.setTo p.quantity [insufficientStockMessage p.productName],
           setQuantity db userId productId p.quantity) ∧
      getItemQuantity (updateQuantity db userId productId body).2 userId productId
        = p.quantity) ∧
    clampQty (BodyQty.num 1000) = 999 ∧
    updateQuantity outOfStockDb 1 1 (BodyQty.num 2)
      = (UpdateOutcome.removed (insufficientStockMessage "Apple"),
         { outOfStockDb with cartItems := [] }) ∧
    updateQuantity scenarioBDb 1 1 (BodyQty.num 1000)
      = (UpdateOutcome.setTo 5 [insufficientStockMessage "Apple"],
         { scenarioBDb with cartItems := [⟨1, 1, 5⟩] }) := by
  refine ⟨?_, ?_, ?_, ?_, ?_, ?_⟩
  · intro body
    unfold clampQty
    cases hpq : parseQty body with
    | none => exact ⟨le_refl 1, by norm_num⟩
    | some q =>
      dsimp only
      split_ifs with h1 h2
      · exact ⟨le_refl 1, by norm_num⟩
      · exact ⟨by norm_num, le_refl 999⟩
      · exact ⟨not_lt.mp h1, not_lt.mp h2⟩
  · intro db userId productId body p hp hq0
    refine ⟨?_, find?_removeItem db userId productId⟩
    unfold updateQuantity
    rw [hp]
    dsimp only
    rw [if_pos hq0]
  · intro db userId productId body p hp hq0 hcap
    have hres : updateQuantity db userId productId body
        = (UpdateOutcome.setTo p.quantity [insufficientStockMessage p.productName],
           setQuantity db userId productId p.quantity) := by
      unfold updateQuantity
      rw [hp]
      dsimp only
      rw [if_neg (not_le.mpr hq0), if_pos hcap]
    refine ⟨hres, ?_⟩
    rw [hres]
    exact getItemQuantity_setQuantity_self db userId productId _ (not_le.mpr hq0)
  · norm_num [clampQty, parseQty]
  · norm_num [updateQuantity, clampQty, parseQty, getById, outOfStockDb, removeItem,
      List.find?, List.filter]
    try decide
  · norm_num [updateQuantity, clampQty, parseQty, getById, scenarioBDb, demoProduct,
      setQuantity, removeItem, List.find?, List.any]
    try decide

/-- C9 (amended): add clamps missing, empty, zero, and negative request
quantities to 1 and then behaves exactly as add(1), and a successful add
always adds at least 1; a non-numeric quantity however parses to NaN,
is not clamped, and the add attempt fails with a database error rather
than behaving as add(1). -/
theorem C9_add_quantity_clamping :
    requestedQty BodyQty.missing = some 1 ∧
    requestedQty BodyQty.emptyStr = some 1 ∧
    requestedQty (BodyQty.num 0) = some 1 ∧
    (∀ q : ℚ, q ≤ 0 → requestedQty (BodyQty.num q) = some 1) ∧
    (∀ q : ℚ, q ≤ 0 → requestedQty (BodyQty.numStr q) = some 1) ∧
    (∀ (db : DB) (userId productId : Nat) (b b2 : BodyQty),
      requestedQty b = requestedQty b2 →
      addToCart db userId productId b = addToCart db userId productId b2) ∧
    (∀ (b : BodyQty) (q : ℚ), requestedQty b = some q → 1 ≤ q) ∧
    requestedQty BodyQty.nanStr = none ∧
    (addToCart scenarioBDb 2 1 BodyQty.nanStr).1 = AddOutcome.dbError := by
  refine ⟨rfl, rfl, ?_, ?_, ?_, ?_, ?_, rfl, ?_⟩
  · norm_num [requestedQty, parseQty, jsMax1]
  · intro q hq
    unfold requestedQty parseQty jsMax1
    dsimp only
    by_cases h0 : q = 0
    · rw [if_pos h0]
      dsimp only
      rw [max_self]
    · rw [if_neg h0]
      dsimp only
      rw [max_eq_left (by linarith)]
  · intro q hq
    unfold requestedQty parseQty jsMax1
    dsimp only
    rw [max_eq_left (by linarith)]
  · intro db userId productId b b2 h
    unfold addToCart
    rw [h]
  · intro b q h
    unfold requestedQty jsMax1 at h
    cases hpq : parseQty b with
    | none => rw [hpq] at h; cases h
    | some r =>
      rw [hpq] at h
      injection h with h2
      rw [← h2]
      exact le_max_left 1 r
  · have hb : (1 == 2) = false := rfl
    norm_num [addToCart, requestedQty, parseQty, jsMax1, jsGtOpt, getById, scenarioBDb,
      demoProduct, getItemQuantity, List.find?, hb]

/-- C9 counterexample: a non-numeric request-body quantity (for example
"abc") does not behave as add(1): Math.max(1, NaN) stays NaN, and on a
state with ample stock the add attempt ends in a database error instead
of storing quantity 1. -/
theorem C9_counterexample_nonnumeric :
    requestedQty BodyQty.nanStr ≠ some 1 ∧
    addToCart scenarioBDb 2 1 BodyQty.nanStr
      ≠ addToCart scenarioBDb 2 1 (BodyQty.num 1) ∧
    (addToCart scenarioBDb 2 1 BodyQty.nanStr).1 = AddOutcome.dbError ∧
    (addToCart scenarioBDb 2 1 (BodyQty.num 1)).1 = AddOutcome.added := by
  have hb : (1 == 2) = false := rfl
  have h1 : addToCart scenarioBDb 2 1 BodyQty.nanStr
      = (AddOutcome.dbError, scenarioBDb) := by
    norm_num [addToCart, requestedQty, parseQty, jsMax1, jsGtOpt, getById, scenarioBDb,
      demoProduct, getItemQuantity, List.find?, hb]
  have h2 : addToCart scenarioBDb 2 1 (BodyQty.num 1)
      = (AddOutcome.added, { scenarioBDb with cartItems := [⟨1, 1, 2⟩, ⟨2, 1, 1⟩] }) := by
    norm_num [addToCart, requestedQty, parseQty, jsMax1, jsGtOpt, getById, scenarioBDb,
      demoProduct, getItemQuantity, setQuantity, List.find?, List.any, hb]
  refine ⟨by decide, ?_, by rw [h1], by rw [h2]⟩
  rw [h1, h2]
  simp

/-- C4: checkout is not atomic: when any persistence step of the pipeline
fails, the remaining steps are skipped and the steps already committed
are not rolled back.  A failing cart read (step 1) or order-header insert
(step 4) leaves the state unchanged; a failing bulk line insert (step 5)
leaves the order header persisted with no lines, stock undecremented and
the cart kept; a failing per-item stock UPDATE (step 6) leaves header and
lines persisted, the cart kept, and the non-failing decrements applied
(concretely: of two items, the first is decremented 5 → 3 while the
second keeps stock 4); a failing cart clear (step 7) leaves header, lines
and decrements persisted with the stale cart coexisting with the
committed order. -/
theorem C4_checkout_not_atomic :
    (∀ (fails : CheckoutFails) (now : Nat) (db : DB) (userId : Nat),
      fails.getCart = true →
      checkout fails now db userId = (CheckoutOutcome.dbError, db)) ∧
    (∀ (c5 : Bool) (d : Nat → Bool) (c7 : Bool) (now : Nat) (db : DB) (userId : Nat),
      (mapCartRows (getCartItems db userId)).isEmpty = false →
      checkout ⟨false, true, c5, d, c7⟩ now db userId
        = (CheckoutOutcome.dbError, db)) ∧
    (∀ (d : Nat → Bool) (c7 : Bool) (now : Nat) (db : DB) (userId : Nat),
      (mapCartRows (getCartItems db userId)).isEmpty = false →
      (checkout ⟨false, false, true, d, c7⟩ now db userId).1
          = CheckoutOutcome.dbError ∧
      (checkout ⟨false, false, true, d, c7⟩ now db userId).2.orderItems
          = db.orderItems ∧
      (checkout ⟨false, false, true, d, c7⟩ now db userId).2.products
          = db.products ∧
      (checkout ⟨false, false, true, d, c7⟩ now db userId).2.cartItems
          = db.cartItems ∧
      ∃ header : OrderRow,
        (checkout ⟨false, false, true, d, c7⟩ now db userId).2.orders
            = db.orders ++ [header] ∧
        header.id = db.nextOrderId ∧ header.userId = userId) ∧
    (∀ (d : Nat → Bool) (c7 : Bool) (now : Nat) (db : DB) (userId : Nat),
      (mapCartRows (getCartItems db userId)).isEmpty = false →
      (decreaseQuantitiesFx d (mapCartRows (getCartItems db userId)) 0
          db.products).1 = true →
      (checkout ⟨false, false, false, d, c7⟩ now db userId).1
          = CheckoutOutcome.dbError ∧
      (checkout ⟨false, false, false, d, c7⟩ now db userId).2.orders
          = db.orders ++ [checkoutHeader now db userId] ∧
      (checkout ⟨false, false, false, d, c7⟩ now db userId).2.orderItems
          = db.orderItems ++ checkoutLines db userId ∧
      (checkout ⟨false, false, false, d, c7⟩ now db userId).2.cartItems
          = db.cartItems ∧
      (checkout ⟨false, false, false, d, c7⟩ now db userId).2.products
          = (decreaseQuantitiesFx d (mapCartRows (getCartItems db userId)) 0
              db.products).2) ∧
    (∀ (now : Nat) (db : DB) (userId : Nat),
      (mapCartRows (getCartItems db userId)).isEmpty = false →
      checkout ⟨false, false, false, fun _ => false, true⟩ now db userId
        = (CheckoutOutcome.dbError,
           { db with
              orders := db.orders ++ [checkoutHeader now db userId],
              orderItems := db.orderItems ++ checkoutLines db userId,
              products := decreaseQuantities (mapCartRows (getCartItems db userId))
                db.products,
              nextOrderId := db.nextOrderId + 1 })) ∧
    checkout ⟨false, false, true, fun _ => false, false⟩ 1000 scenarioBDb 1
      = (CheckoutOutcome.dbError,
         { products := [demoProduct], cartItems := [⟨1, 1, 2⟩],
           orders := [⟨7, "INV-1000", 1, 20, 9 / 5, 109 / 5, "Pending for delivery"⟩],
           orderItems := [], nextOrderId := 8 }) ∧
    ((checkout ⟨false, false, false, fun i => i == 1, false⟩ 1000 twoItemDb 1).1
        = CheckoutOutcome.dbError ∧
     stockOf (checkout ⟨false, false, false, fun i => i == 1, false⟩
        1000 twoItemDb 1).2.products 1 = some 3 ∧
     stockOf (checkout ⟨false, false, false, fun i => i == 1, false⟩
        1000 twoItemDb 1).2.products 2 = some 4 ∧
     (checkout ⟨false, false, false, fun i => i == 1, false⟩
        1000 twoItemDb 1).2.cartItems = twoItemDb.cartItems ∧
     (checkout ⟨false, false, false, fun i => i == 1, false⟩
        1000 twoItemDb 1).2.orderItems.length = 2) := by
  have hb0 : ((0 : Nat) == 1) = false := rfl
  have hb1 : ((1 : Nat) == 1) = true := rfl
  have hb2 : ((1 : Nat) == 2) = false := rfl
  have hb3 : ((2 : Nat) == 2) = true := rfl
  refine ⟨?_, ?_, ?_, ?_, ?_, ?_, ?_⟩
  · intro fails now db userId h
    exact checkout_failGetCart_eq fails now db userId h
  · intro c5 d c7 now db userId hne
    exact checkout_failCreateOrder_eq c5 d c7 now db userId hne
  · intro d c7 now db userId hne
    rw [checkout_failCreateItems_eq d c7 now db userId hne]
    dsimp only
    exact ⟨rfl, rfl, rfl, rfl, _, rfl, rfl, rfl⟩
  · intro d c7 now db userId hne hd
    rw [checkout_failDecrease_eq d c7 now db userId hne hd]
    exact ⟨rfl, rfl, rfl, rfl, rfl⟩
  · intro now db userId hne
    exact checkout_failClear_eq now db userId hne
  · norm_num [checkout, scenarioBDb, demoProduct, mapCartRows, getCartItems,
      orderCreate, formatMoney, normalizeStatus, round2, TAX_RATE, round_eq,
      List.filterMap, List.foldl]
    try decide
  · refine ⟨?_, ?_, ?_, ?_, ?_⟩ <;>
      norm_num [checkout, twoItemDb, mapCartRows, getCartItems, orderCreate,
        createMany, clearCart, decreaseQuantitiesFx, decreaseOne, formatMoney,
        round2, TAX_RATE, round_eq, List.filterMap, List.foldl, stockOf,
        List.find?, hb0, hb1, hb2, hb3]
